import Mathlib

/-!
# am-telegram: the alert relay of `app.go`

A shallow embedding of the alert pipeline (`emojiFor`, `inWorkingHours`,
`parseChatIDs`, `handleAlert`, `sendToTelegram`, `logJSON`) together with small
models of the library calls it relies on (`strings.Split`, `fmt.Sprintf`, map
indexing, the prometheus counters, `http.Post`, `http.Error`).
-/

namespace AmTelegram

/-! ## Library models -/

/-- Go `map[string]string`. The nil map (what JSON decoding leaves when the
field is absent) is `none`; a non-nil map is an association list. -/
abbrev GoMap := Option (List (String × String))

/-- Go map indexing `m[k]`: the stored value, or the zero value `""` when the
key is absent or the map is nil. -/
def index (m : GoMap) (k : String) : String :=
  match m with
  | none => ""
  | some kvs => (kvs.lookup k).getD ""

/-- Splitting of a character list at every occurrence of `sep`; the pieces are
kept as they are, empty ones included. -/
def splitChars (sep : Char) : List Char → List (List Char)
  | [] => [[]]
  | c :: cs =>
    if c = sep then [] :: splitChars sep cs
    else
      match splitChars sep cs with
      | [] => [[c]]
      | p :: ps => (c :: p) :: ps

/-- Go `strings.Split(s, sep)` for a one-character separator. -/
def stringsSplit (s : String) (sep : Char) : List String :=
  (splitChars sep s.data).map String.mk

/-- Go `strings.Join(parts, sep)` for a one-character separator, on character
lists. -/
def joinChars (sep : Char) : List (List Char) → List Char
  | [] => []
  | [p] => p
  | p :: q :: ps => p ++ sep :: joinChars sep (q :: ps)

/-- An operand of `fmt.Sprintf`. Errors are passed by the text `%v` prints for
them (see `errorText`). -/
inductive Arg where
  | str (s : String)
  | int (n : Int)

/-- The text `%v` prints for a Go `error`: its message, or `<nil>`. -/
def errorText (err : Option String) : String :=
  match err with
  | none => "<nil>"
  | some m => m

/-- Rendering `type=value` of an operand, as in the diagnostics of `fmt`. -/
def Arg.typed : Arg → String
  | .str s => "string=" ++ s
  | .int n => "int=" ++ toString n

/-- The verbs the program uses: `%s` on strings, `%d` on ints, `%v` on both.
A verb that does not fit its operand prints the bad-verb diagnostic of `fmt`;
verbs other than `s`, `d`, `v` are outside the modelled fragment and print the
same diagnostic. -/
def fmtVerb (v : Char) (a : Arg) : String :=
  match a with
  | .str s => if v = 's' ∨ v = 'v' then s else "%!" ++ String.singleton v ++ "(" ++ a.typed ++ ")"
  | .int n => if v = 'd' ∨ v = 'v' then toString n else "%!" ++ String.singleton v ++ "(" ++ a.typed ++ ")"

/-- Operands left over at the end of the format. -/
def fmtExtra : List Arg → String
  | [] => ""
  | a :: as => "%!(EXTRA " ++ String.intercalate ", " ((a :: as).map Arg.typed) ++ ")"

/-- The scanner of `fmt.Sprintf`; `pending` says that a `%` has just been
read. -/
def sprintfAux : Bool → List Char → List Arg → String
  | false, [], args => fmtExtra args
  | true, [], args => "%!(NOVERB)" ++ fmtExtra args
  | false, c :: rest, args =>
    if c = '%' then sprintfAux true rest args
    else String.singleton c ++ sprintfAux false rest args
  | true, v :: rest, args =>
    if v = '%' then "%" ++ sprintfAux false rest args
    else
      match args with
      | [] => "%!" ++ String.singleton v ++ "(MISSING)" ++ sprintfAux false rest []
      | a :: as => fmtVerb v a ++ sprintfAux false rest as

/-- Go `fmt.Sprintf(format, args...)` on the fragment above. -/
def sprintf (format : String) (args : List Arg) : String :=
  sprintfAux false format.data args

/-! ## Data model -/

/-- The `Alert` struct. The two timestamps are carried as integers; nothing in
the pipeline reads them. -/
structure Alert where
  Status : String
  Labels : GoMap
  Annotations : GoMap
  StartsAt : Int
  EndsAt : Int
  GeneratorURL : String

/-- The `AlertManagerPayload` struct. -/
structure AlertManagerPayload where
  Alerts : List Alert

/-- The package-level configuration variables. -/
structure Globals where
  defaultReceivers : List String
  botToken : String
  grafanaURL : String
  promURL : String
  amURL : String

/-- The initialisers of the package-level `var` block, over the process
environment `getenv`. -/
def initGlobals (getenv : String → String) : Globals where
  defaultReceivers := stringsSplit (getenv "DEFAULT_RECEPIENTS") ','
  botToken := getenv "TELEGRAM_BOT_TOKEN"
  grafanaURL := getenv "GRAFANA_BASE_URL"
  promURL := getenv "PROM_BASE_URL"
  amURL := getenv "AM_BASE_URL"

/-- One call of `http.Post` made by the program: the URL, the content type and
the three fields of the JSON body. -/
structure HttpPost where
  url : String
  contentType : String
  chat_id : String
  text : String
  parse_mode : String
deriving DecidableEq

/-- What `http.Post` returned: the status code of the response when the
response is non-nil, and the message of the error when the error is
non-nil. -/
structure PostResult where
  resp : Option Int
  err : Option String

/-- The observable effects of the program. A counter vector is the list of the
label values of its `Inc` calls, the log is the list of `(severity, message)`
entries, `posts` are the calls of `http.Post` in order and `closed` counts the
calls of `resp.Body.Close`. -/
structure World where
  alertCounter : List (String × String)
  sendCounter : List String
  sendErrorCounter : List String
  logs : List (String × String)
  posts : List HttpPost
  closed : Nat

/-- The value of a counter for given label values: one per `Inc`. -/
def counterValue {α : Type} [DecidableEq α] (c : List α) (labels : α) : Nat :=
  c.count labels

/-- The state before anything has happened. -/
def World.empty : World :=
  { alertCounter := [], sendCounter := [], sendErrorCounter := [], logs := [], posts := [], closed := 0 }

/-- What the handler wrote to its `http.ResponseWriter`: the status passed to
`WriteHeader`, if any, and the body. -/
structure ResponseWriter where
  status : Option Nat
  body : String

/-- The status the client receives: `net/http` answers 200 when the handler
returns without calling `WriteHeader`. -/
def ResponseWriter.statusCode (wr : ResponseWriter) : Nat :=
  wr.status.getD 200

/-- The writer a handler starts with: nothing written. -/
def ResponseWriter.fresh : ResponseWriter :=
  { status := none, body := "" }

/-- Go `http.Error(w, msg, code)`: the status and the message followed by a
newline. -/
def httpError (wr : ResponseWriter) (msg : String) (code : Nat) : ResponseWriter :=
  { status := some code, body := wr.body ++ msg ++ "\n" }

/-! ## The program -/

/-- The function `logJSON`: one entry with its severity and message. -/
def logJSON (w : World) (severity message : String) : World :=
  { w with logs := w.logs ++ [(severity, message)] }

/-- The function `emojiFor`. -/
def emojiFor (alert : Alert) : String :=
  if alert.Status = "resolved" then "🟢"
  else if index alert.Labels "severity" = "info" then "🔵"
  else if index alert.Labels "severity" = "warning" then "🟡"
  else if index alert.Labels "severity" = "critical" then "🔴"
  else "⚪️"

/-- The function `inWorkingHours`, over the hour `time.Now().Hour()`. -/
def inWorkingHours (hour : Int) : Bool :=
  decide (hour ≥ 8) && decide (hour ≤ 22)

/-- The function `parseChatIDs`. -/
def parseChatIDs (base : List String) (overrides : String) : List String :=
  let ids := [] ++ base
  if overrides ≠ "" then
    let ids : List String := []
    ids ++ stringsSplit overrides ','
  else ids

/-- The receivers of an alert, as `handleAlert` computes them from the values
`overrides` of `ann["override_receivers"]` and `additional` of
`ann["additional_receivers"]`: `parseChatIDs`, then the append. -/
def resolveReceivers (base : List String) (overrides additional : String) : List String :=
  let receivers := parseChatIDs base overrides
  if additional ≠ "" then
    receivers ++ stringsSplit additional ','
  else receivers

/-- The message `handleAlert` builds for an alert. -/
def buildMessage (g : Globals) (alert : Alert) : String :=
  let ann := alert.Annotations
  let emoji := emojiFor alert
  let title := index ann "title"
  let desc := index ann "description"
  sprintf "%s *%s*\n%s\n[Query](%s) / [Mute](%s) / [Grafana](%s)"
    [.str emoji, .str title, .str desc, .str alert.GeneratorURL, .str g.amURL, .str g.grafanaURL]

/-- The test of `sendToTelegram` on what `http.Post` returned:
`err != nil || (resp != nil && resp.StatusCode >= 300)`. -/
def postFailed (r : PostResult) : Bool :=
  r.err.isSome || (match r.resp with
    | some code => decide (code ≥ 300)
    | none => false)

/-- The function `sendToTelegram`. The result of the call of `http.Post` is
`net i`, where `i` is the number of calls made before it. -/
def sendToTelegram (g : Globals) (net : Nat → PostResult) (w : World) (chatID text : String) :
    World :=
  let url := sprintf "https://api.telegram.org/bot%s/sendMessage" [.str g.botToken]
  let r := net w.posts.length
  let w := { w with posts := w.posts ++
    [{ url := url, contentType := "application/json", chat_id := chatID, text := text,
       parse_mode := "Markdown" }] }
  let w :=
    if postFailed r then
      let errMsg := sprintf "Failed to send alert to %s: %v" [.str chatID, .str (errorText r.err)]
      let errMsg :=
        match r.resp with
        | some code => sprintf "Failed to send alert to %s: HTTP %d" [.str chatID, .int code]
        | none => errMsg
      let w := logJSON w "ERROR" errMsg
      { w with sendErrorCounter := w.sendErrorCounter ++ [chatID] }
    else w
  match r.resp with
  | some _ => { w with closed := w.closed + 1 }
  | none => w

/-- The body of the loop over the receivers in `handleAlert`. -/
def deliver (g : Globals) (net : Nat → PostResult) (msg : String) (w : World) (rcpt : String) :
    World :=
  let w := sendToTelegram g net w rcpt msg
  let w := { w with sendCounter := w.sendCounter ++ [rcpt] }
  logJSON w "NORMAL" (sprintf "Alert sent to receiver: %s" [.str rcpt])

/-- The body of the loop over the alerts in `handleAlert`; `hour` is the value
of `time.Now().Hour()`. -/
def processAlert (g : Globals) (hour : Int) (net : Nat → PostResult) (w : World) (alert : Alert) :
    World :=
  let alertname := index alert.Labels "alertname"
  let w := { w with alertCounter := w.alertCounter ++ [(alert.Status, alertname)] }
  let w := logJSON w "NORMAL"
    (sprintf "Processing alert: %s [%s]" [.str alertname, .str alert.Status])
  let ann := alert.Annotations
  if alert.Status = "resolved" ∧ index ann "do_not_send_resolved" = "true" then
    logJSON w "NORMAL"
      (sprintf "Skipping resolved alert %s due to do_not_send_resolved" [.str alertname])
  else if index ann "only_working_hours" = "true" ∧ inWorkingHours hour = false then
    logJSON w "NORMAL"
      (sprintf "Skipping alert %s due to only_working_hours" [.str alertname])
  else
    let receivers := resolveReceivers g.defaultReceivers
      (index ann "override_receivers") (index ann "additional_receivers")
    let msg := buildMessage g alert
    receivers.foldl (deliver g net msg) w

/-- The function `handleAlert`. The request body enters as the result of
`json.NewDecoder(r.Body).Decode(&payload)`: the error message or the decoded
payload. -/
def handleAlert (g : Globals) (hour : Int) (net : Nat → PostResult) (w : World)
    (wr : ResponseWriter) (decoded : Except String AlertManagerPayload) : World × ResponseWriter :=
  match decoded with
  | .error err =>
    (logJSON w "ERROR" (sprintf "Error decoding alert payload: %v" [.str err]),
      httpError wr "bad request" 400)
  | .ok payload =>
    let w := logJSON w "NORMAL" (sprintf "Received %d alerts" [.int payload.Alerts.length])
    (payload.Alerts.foldl (processAlert g hour net) w, wr)

/-! ## Specification-side definitions -/

/-- The two suppression rules in the words of the specification: a resolved
alert with `do_not_send_resolved` set to `"true"`, or `only_working_hours` set
to `"true"` at an hour outside 8..22. -/
def suppressed (hour : Int) (alert : Alert) : Bool :=
  (decide (alert.Status = "resolved") &&
      decide (index alert.Annotations "do_not_send_resolved" = "true")) ||
  (decide (index alert.Annotations "only_working_hours" = "true") &&
      (decide (hour < 8) || decide (hour > 22)))

/-- The delivery attempts recorded in a state, as `(receiver, text)` pairs in
the order they were made. -/
def attempts (w : World) : List (String × String) :=
  w.posts.map (fun p => (p.chat_id, p.text))

/-- One attempt per resolved receiver of an alert, in list order, each with
the alert's message. -/
def alertAttempts (g : Globals) (alert : Alert) : List (String × String) :=
  (resolveReceivers g.defaultReceivers (index alert.Annotations "override_receivers")
    (index alert.Annotations "additional_receivers")).map (fun r => (r, buildMessage g alert))

/-! ## Sample inputs -/

/-- A process environment with two default receivers. -/
def sampleEnv (k : String) : String :=
  if k = "DEFAULT_RECEPIENTS" then "A,B"
  else if k = "AM_BASE_URL" then "http://am"
  else if k = "GRAFANA_BASE_URL" then "http://grafana"
  else ""

/-- A process environment in which nothing is set. -/
def emptyEnv (_ : String) : String := ""

/-- A firing alert of critical severity with a title and a description. -/
def firingAlert : Alert :=
  { Status := "firing"
    Labels := some [("alertname", "Disk"), ("severity", "critical")]
    Annotations := some [("title", "T"), ("description", "D")]
    StartsAt := 0
    EndsAt := 0
    GeneratorURL := "http://q" }

/-- A resolved alert that asks not to be sent when resolved. -/
def quietResolvedAlert : Alert :=
  { Status := "resolved"
    Labels := some [("alertname", "Disk"), ("severity", "critical")]
    Annotations := some [("do_not_send_resolved", "true")]
    StartsAt := 0
    EndsAt := 0
    GeneratorURL := "http://q" }

/-- A firing alert restricted to working hours, sent to one overriding
receiver. -/
def officeAlert : Alert :=
  { Status := "firing"
    Labels := some [("alertname", "Load")]
    Annotations := some [("only_working_hours", "true"), ("override_receivers", "C")]
    StartsAt := 0
    EndsAt := 0
    GeneratorURL := "" }

/-- A messaging API that answers every call with HTTP 500. -/
def alwaysBroken (_ : Nat) : PostResult :=
  { resp := some 500, err := none }

/-- A messaging API that answers every call with HTTP 200. -/
def alwaysFine (_ : Nat) : PostResult :=
  { resp := some 200, err := none }

/-- The condition under which the specification calls a delivery failed: a
network error, or a response whose status code is at least 300. -/
def failedOutcome (r : PostResult) : Prop :=
  r.err ≠ none ∨ ∃ code, r.resp = some code ∧ code ≥ 300

end AmTelegram

namespace AmTelegram

/-! ## Facts about the library models -/

theorem splitChars_ne_nil (sep : Char) (cs : List Char) : splitChars sep cs ≠ [] := by
  induction cs with
  | nil => simp [splitChars]
  | cons c cs ih =>
    unfold splitChars
    split
    · simp
    · split <;> simp

theorem joinChars_cons_cons (sep c : Char) (p : List Char) (ps : List (List Char)) :
    joinChars sep ((c :: p) :: ps) = c :: joinChars sep (p :: ps) := by
  cases ps <;> simp [joinChars]

theorem joinChars_splitChars (sep : Char) (cs : List Char) :
    joinChars sep (splitChars sep cs) = cs := by
  induction cs with
  | nil => simp [splitChars, joinChars]
  | cons c cs ih =>
    unfold splitChars
    by_cases h : c = sep
    · rw [if_pos h]
      cases hs : splitChars sep cs with
      | nil => exact absurd hs (splitChars_ne_nil sep cs)
      | cons p ps =>
        rw [hs] at ih
        simp [joinChars, ih, h]
    · rw [if_neg h]
      cases hs : splitChars sep cs with
      | nil => exact absurd hs (splitChars_ne_nil sep cs)
      | cons p ps =>
        rw [hs] at ih
        simp only []
        rw [joinChars_cons_cons, ih]

theorem splitChars_no_sep (sep : Char) (cs : List Char) :
    ∀ p ∈ splitChars sep cs, sep ∉ p := by
  induction cs with
  | nil => simp [splitChars]
  | cons c cs ih =>
    unfold splitChars
    by_cases h : c = sep
    · rw [if_pos h]
      intro p hp
      rcases List.mem_cons.mp hp with rfl | hp
      · simp
      · exact ih p hp
    · rw [if_neg h]
      cases hs : splitChars sep cs with
      | nil => exact absurd hs (splitChars_ne_nil sep cs)
      | cons q qs =>
        rw [hs] at ih
        intro p hp
        rcases List.mem_cons.mp hp with rfl | hp
        · intro hmem
          rcases List.mem_cons.mp hmem with he | hq
          · exact h he.symm
          · exact ih q (List.mem_cons_self _ _) hq
        · exact ih p (List.mem_cons_of_mem _ hp)

theorem splitChars_length (sep : Char) (cs : List Char) :
    (splitChars sep cs).length = cs.count sep + 1 := by
  induction cs with
  | nil => simp [splitChars]
  | cons c cs ih =>
    unfold splitChars
    by_cases h : c = sep
    · rw [if_pos h]
      simp [ih, h]
    · rw [if_neg h]
      cases hs : splitChars sep cs with
      | nil => exact absurd hs (splitChars_ne_nil sep cs)
      | cons q qs =>
        rw [hs] at ih
        simp only [List.length_cons] at ih ⊢
        rw [ih, List.count_cons_of_ne (Ne.symm h)]

theorem stringsSplit_ne_nil (s : String) (sep : Char) : stringsSplit s sep ≠ [] := by
  simp [stringsSplit, splitChars_ne_nil]

theorem sprintf_message (e t d q a g : String) :
    sprintf "%s *%s*\n%s\n[Query](%s) / [Mute](%s) / [Grafana](%s)"
        [.str e, .str t, .str d, .str q, .str a, .str g]
      = e ++ " *" ++ t ++ "*\n" ++ d ++ "\n[Query](" ++ q ++ ") / [Mute](" ++ a
          ++ ") / [Grafana](" ++ g ++ ")" := by
  apply String.ext
  simp [sprintf, sprintfAux, fmtVerb, fmtExtra, String.data_append]

end AmTelegram

namespace AmTelegram

/-! ## Effects of one delivery -/

theorem postFailed_iff (r : PostResult) : postFailed r = true ↔ failedOutcome r := by
  rcases r with ⟨resp, err⟩
  cases resp <;> cases err <;> simp [postFailed, failedOutcome]

theorem sendToTelegram_eq (g : Globals) (net : Nat → PostResult) (w : World)
    (chatID text : String) :
    sendToTelegram g net w chatID text =
      { alertCounter := w.alertCounter
        sendCounter := w.sendCounter
        sendErrorCounter :=
          if postFailed (net w.posts.length) then w.sendErrorCounter ++ [chatID]
          else w.sendErrorCounter
        logs :=
          if postFailed (net w.posts.length) then
            w.logs ++ [("ERROR",
              match (net w.posts.length).resp with
              | some code =>
                sprintf "Failed to send alert to %s: HTTP %d" [.str chatID, .int code]
              | none =>
                sprintf "Failed to send alert to %s: %v"
                  [.str chatID, .str (errorText (net w.posts.length).err)])]
          else w.logs
        posts := w.posts ++
          [{ url := sprintf "https://api.telegram.org/bot%s/sendMessage" [.str g.botToken],
             contentType := "application/json", chat_id := chatID, text := text,
             parse_mode := "Markdown" }]
        closed := if (net w.posts.length).resp.isSome then w.closed + 1 else w.closed } := by
  cases h : postFailed (net w.posts.length) <;> cases h2 : (net w.posts.length).resp <;>
    simp [sendToTelegram, logJSON, h, h2]

theorem sendToTelegram_attempts (g : Globals) (net : Nat → PostResult) (w : World)
    (chatID text : String) :
    attempts (sendToTelegram g net w chatID text) = attempts w ++ [(chatID, text)] := by
  simp [sendToTelegram_eq, attempts]

theorem sendToTelegram_posts_length (g : Globals) (net : Nat → PostResult) (w : World)
    (chatID text : String) :
    (sendToTelegram g net w chatID text).posts.length = w.posts.length + 1 := by
  simp [sendToTelegram_eq]

theorem sendToTelegram_sendCounter (g : Globals) (net : Nat → PostResult) (w : World)
    (chatID text : String) :
    (sendToTelegram g net w chatID text).sendCounter = w.sendCounter := by
  simp [sendToTelegram_eq]

theorem sendToTelegram_alertCounter (g : Globals) (net : Nat → PostResult) (w : World)
    (chatID text : String) :
    (sendToTelegram g net w chatID text).alertCounter = w.alertCounter := by
  simp [sendToTelegram_eq]

theorem sendToTelegram_sendErrorCounter (g : Globals) (net : Nat → PostResult) (w : World)
    (chatID text : String) :
    (sendToTelegram g net w chatID text).sendErrorCounter =
      if postFailed (net w.posts.length) then w.sendErrorCounter ++ [chatID]
      else w.sendErrorCounter := by
  simp [sendToTelegram_eq]

theorem sendToTelegram_logs (g : Globals) (net : Nat → PostResult) (w : World)
    (chatID text : String) :
    (sendToTelegram g net w chatID text).logs =
      if postFailed (net w.posts.length) then
        w.logs ++ [("ERROR",
          match (net w.posts.length).resp with
          | some code => sprintf "Failed to send alert to %s: HTTP %d" [.str chatID, .int code]
          | none => sprintf "Failed to send alert to %s: %v"
              [.str chatID, .str (errorText (net w.posts.length).err)])]
      else w.logs := by
  simp [sendToTelegram_eq]

theorem deliver_attempts (g : Globals) (net : Nat → PostResult) (msg : String) (w : World)
    (rcpt : String) :
    attempts (deliver g net msg w rcpt) = attempts w ++ [(rcpt, msg)] := by
  have h := sendToTelegram_attempts g net w rcpt msg
  simpa [deliver, logJSON, attempts] using h

theorem deliver_sendCounter (g : Globals) (net : Nat → PostResult) (msg : String) (w : World)
    (rcpt : String) :
    (deliver g net msg w rcpt).sendCounter = w.sendCounter ++ [rcpt] := by
  simp [deliver, logJSON, sendToTelegram_sendCounter]

theorem deliver_alertCounter (g : Globals) (net : Nat → PostResult) (msg : String) (w : World)
    (rcpt : String) :
    (deliver g net msg w rcpt).alertCounter = w.alertCounter := by
  simp [deliver, logJSON, sendToTelegram_alertCounter]

theorem deliver_sendErrorCounter (g : Globals) (net : Nat → PostResult) (msg : String)
    (w : World) (rcpt : String) :
    (deliver g net msg w rcpt).sendErrorCounter =
      if postFailed (net w.posts.length) then w.sendErrorCounter ++ [rcpt]
      else w.sendErrorCounter := by
  simp [deliver, logJSON, sendToTelegram_sendErrorCounter]

theorem foldl_deliver_attempts (g : Globals) (net : Nat → PostResult) (msg : String)
    (rs : List String) (w : World) :
    attempts (rs.foldl (deliver g net msg) w) = attempts w ++ rs.map (fun r => (r, msg)) := by
  induction rs generalizing w with
  | nil => simp
  | cons r rs ih => simp [List.foldl_cons, ih, deliver_attempts]

theorem attempts_logJSON (w : World) (sev m : String) : attempts (logJSON w sev m) = attempts w := by
  simp [attempts, logJSON]

theorem processAlert_attempts (g : Globals) (hour : Int) (net : Nat → PostResult) (w : World)
    (alert : Alert) :
    attempts (processAlert g hour net w alert) =
      attempts w ++ (if suppressed hour alert then [] else alertAttempts g alert) := by
  unfold processAlert
  by_cases h1 : alert.Status = "resolved" ∧ index alert.Annotations "do_not_send_resolved" = "true"
  · simp only [if_pos h1]
    have hs : suppressed hour alert = true := by simp [suppressed, h1.1, h1.2]
    simp [hs, attempts, logJSON]
  · simp only [if_neg h1]
    by_cases h2 : index alert.Annotations "only_working_hours" = "true" ∧
        inWorkingHours hour = false
    · simp only [if_pos h2]
      have hs : suppressed hour alert = true := by
        have h3 := h2.2
        simp only [inWorkingHours, Bool.and_eq_false_iff, decide_eq_false_iff_not] at h3
        simp only [suppressed, Bool.or_eq_true, Bool.and_eq_true, decide_eq_true_eq]
        right
        refine ⟨h2.1, ?_⟩
        omega
      simp [hs, attempts, logJSON]
    · simp only [if_neg h2]
      have hs : suppressed hour alert = false := by
        rw [Bool.eq_false_iff]
        intro hs
        simp only [suppressed, Bool.or_eq_true, Bool.and_eq_true, decide_eq_true_eq] at hs
        rcases hs with hs | hs
        · exact h1 hs
        · apply h2
          refine ⟨hs.1, ?_⟩
          simp only [inWorkingHours, Bool.and_eq_false_iff, decide_eq_false_iff_not]
          omega
      rw [foldl_deliver_attempts]
      simp [hs, alertAttempts, attempts, logJSON]

theorem foldl_processAlert_attempts (g : Globals) (hour : Int) (net : Nat → PostResult)
    (alerts : List Alert) (w : World) :
    attempts (alerts.foldl (processAlert g hour net) w) =
      attempts w ++
        (alerts.filter (fun a => !suppressed hour a)).flatMap (alertAttempts g) := by
  induction alerts generalizing w with
  | nil => simp
  | cons a as ih =>
    rw [List.foldl_cons, ih, processAlert_attempts]
    cases hs : suppressed hour a <;> simp [List.filter_cons, hs]

end AmTelegram

namespace AmTelegram

/-! ## Receiver resolution -/

theorem resolveReceivers_eq (d : List String) (overrides additional : String) :
    resolveReceivers d overrides additional =
      (if overrides = "" then d else stringsSplit overrides ',') ++
        (if additional = "" then [] else stringsSplit additional ',') := by
  by_cases h1 : overrides = "" <;> by_cases h2 : additional = "" <;>
    simp [resolveReceivers, parseChatIDs, h1, h2]

theorem resolveReceivers_ne_nil (d : List String) (overrides additional : String)
    (hd : d ≠ []) : resolveReceivers d overrides additional ≠ [] := by
  rw [resolveReceivers_eq]
  by_cases h1 : overrides = ""
  · simp [h1, hd]
  · simp [h1, stringsSplit_ne_nil]

/-- C1: the resolved receivers are the default list, or the comma-split
override when it is non-empty, followed by the comma-split additional value
when it is non-empty; splitting keeps every piece as it stands (joining the
pieces with commas gives the input back, no piece holds a comma, and there is
one more piece than commas), and the four examples of the specification come
out as stated. -/
theorem resolveReceivers_spec (d : List String) (overrides additional : String) :
    resolveReceivers d overrides additional =
        (if overrides = "" then d else stringsSplit overrides ',') ++
          (if additional = "" then [] else stringsSplit additional ',')
      ∧ (∀ s : String,
          joinChars ',' ((stringsSplit s ',').map String.data) = s.data
          ∧ (∀ p ∈ stringsSplit s ',', ',' ∉ p.data)
          ∧ (stringsSplit s ',').length = s.data.count ',' + 1)
      ∧ resolveReceivers ["A", "B"] "" "" = ["A", "B"]
      ∧ resolveReceivers ["A", "B"] "C,D" "" = ["C", "D"]
      ∧ resolveReceivers d "C" "E,F" = ["C", "E", "F"]
      ∧ resolveReceivers ["A"] "" "B" = ["A", "B"]
      ∧ resolveReceivers ["A"] " x,,x , " "x," = [" x", "", "x ", " ", "x", ""] := by
  refine ⟨resolveReceivers_eq d overrides additional, ?_, by decide, by decide, ?_, by decide,
    by decide⟩
  · intro s
    refine ⟨?_, ?_, ?_⟩
    · have h : (stringsSplit s ',').map String.data = splitChars ',' s.data := by
        simp [stringsSplit, List.map_map, Function.comp_def]
      rw [h, joinChars_splitChars]
    · intro p hp
      simp only [stringsSplit, List.mem_map] at hp
      obtain ⟨q, hq, rfl⟩ := hp
      exact splitChars_no_sep ',' s.data q hq
    · simp [stringsSplit, splitChars_length]
  · rw [resolveReceivers_eq, if_neg (by decide), if_neg (by decide)]
    decide

theorem resolveReceivers_spec_witness :
    resolveReceivers ["A"] "C" "E,F" = ["C", "E", "F"] :=
  (resolveReceivers_spec ["A"] "C" "E,F").2.2.2.2.1

/-- C10: with the default list split from the configuration string, the
resolved list is never empty, an alert that is not suppressed causes at least
one delivery attempt, and with an empty configuration string and no receiver
annotations the resolved list is the single empty identifier, to which one
attempt is made. -/
theorem resolveReceivers_nonempty (getenv : String → String) (overrides additional : String) :
    resolveReceivers (initGlobals getenv).defaultReceivers overrides additional ≠ []
      ∧ (∀ (hour : Int) (net : Nat → PostResult) (w : World) (alert : Alert),
          suppressed hour alert = false →
            (attempts (processAlert (initGlobals getenv) hour net w alert)).length
              ≥ (attempts w).length + 1)
      ∧ (getenv "DEFAULT_RECEPIENTS" = "" →
          resolveReceivers (initGlobals getenv).defaultReceivers "" "" = [""]
          ∧ ∀ (hour : Int) (net : Nat → PostResult) (w : World) (alert : Alert),
              suppressed hour alert = false →
              index alert.Annotations "override_receivers" = "" →
              index alert.Annotations "additional_receivers" = "" →
                attempts (processAlert (initGlobals getenv) hour net w alert)
                  = attempts w ++ [("", buildMessage (initGlobals getenv) alert)]) := by
  have hne : ∀ ov add, resolveReceivers (initGlobals getenv).defaultReceivers ov add ≠ [] :=
    fun ov add => resolveReceivers_ne_nil _ ov add (stringsSplit_ne_nil _ _)
  refine ⟨hne _ _, ?_, ?_⟩
  · intro hour net w alert hs
    rw [processAlert_attempts, hs]
    have h := hne (index alert.Annotations "override_receivers")
      (index alert.Annotations "additional_receivers")
    have hl := List.length_pos.mpr h
    simp only [Bool.false_eq_true, if_false, List.length_append, alertAttempts, List.length_map]
    omega
  · intro hc
    have hd : (initGlobals getenv).defaultReceivers = [""] := by
      simp only [initGlobals, hc]
      decide
    refine ⟨by rw [hd]; decide, ?_⟩
    intro hour net w alert hs ho ha
    rw [processAlert_attempts, hs]
    simp only [Bool.false_eq_true, if_false, alertAttempts, ho, ha, hd]
    have hr : resolveReceivers [""] "" "" = [""] := by decide
    rw [hr]
    simp

theorem resolveReceivers_nonempty_witness :
    resolveReceivers (initGlobals emptyEnv).defaultReceivers "" "" = [""] :=
  ((resolveReceivers_nonempty emptyEnv "" "").2.2 rfl).1

end AmTelegram

namespace AmTelegram

/-! ## The glyph and the message -/

/-- C6: `emojiFor` returns the green circle for every resolved alert whatever
its severity; for any other status it returns blue for `info`, yellow for
`warning`, red for `critical`, and the white glyph for every other severity,
for an absent severity label and for an absent label map. -/
theorem emojiFor_table (alert : Alert) :
    (alert.Status = "resolved" → emojiFor alert = "🟢")
      ∧ (alert.Status ≠ "resolved" →
          (index alert.Labels "severity" = "info" → emojiFor alert = "🔵")
          ∧ (index alert.Labels "severity" = "warning" → emojiFor alert = "🟡")
          ∧ (index alert.Labels "severity" = "critical" → emojiFor alert = "🔴")
          ∧ (index alert.Labels "severity" ≠ "info" →
              index alert.Labels "severity" ≠ "warning" →
              index alert.Labels "severity" ≠ "critical" → emojiFor alert = "⚪️")
          ∧ (alert.Labels = none → emojiFor alert = "⚪️")
          ∧ (∀ kvs, alert.Labels = some kvs → kvs.lookup "severity" = none →
              emojiFor alert = "⚪️")) := by
  refine ⟨fun h => by simp [emojiFor, h], fun h => ⟨?_, ?_, ?_, ?_, ?_, ?_⟩⟩
  · intro hs
    simp [emojiFor, h, hs]
  · intro hs
    simp [emojiFor, h, hs]
  · intro hs
    simp [emojiFor, h, hs]
  · intro h1 h2 h3
    simp [emojiFor, h, h1, h2, h3]
  · intro hl
    simp [emojiFor, h, hl, index]
  · intro kvs hl hk
    simp [emojiFor, h, hl, hk, index]

theorem emojiFor_table_witness :
    emojiFor quietResolvedAlert = "🟢" ∧ emojiFor firingAlert = "🔴" :=
  ⟨(emojiFor_table quietResolvedAlert).1 (by decide),
    ((emojiFor_table firingAlert).2 (by decide)).2.2.1 (by decide)⟩

/-- C9: the message built for an alert is the glyph, the title in asterisks,
the description on its own line and the three links, Query to the alert's
generatorURL, Mute to the alert-manager base URL and Grafana to the dashboard
base URL; title and description are inserted as they are and are empty when
the annotation is absent; every attempt made for a non-suppressed alert
carries exactly this text. -/
theorem buildMessage_format (g : Globals) (alert : Alert) :
    buildMessage g alert =
        emojiFor alert ++ " *" ++ index alert.Annotations "title" ++ "*\n"
          ++ index alert.Annotations "description" ++ "\n[Query](" ++ alert.GeneratorURL
          ++ ") / [Mute](" ++ g.amURL ++ ") / [Grafana](" ++ g.grafanaURL ++ ")"
      ∧ (∀ (hour : Int) (net : Nat → PostResult) (w : World), suppressed hour alert = false →
          attempts (processAlert g hour net w alert) =
            attempts w ++
              (resolveReceivers g.defaultReceivers (index alert.Annotations "override_receivers")
                (index alert.Annotations "additional_receivers")).map
                (fun r => (r,
                  emojiFor alert ++ " *" ++ index alert.Annotations "title" ++ "*\n"
                    ++ index alert.Annotations "description" ++ "\n[Query]("
                    ++ alert.GeneratorURL ++ ") / [Mute](" ++ g.amURL ++ ") / [Grafana]("
                    ++ g.grafanaURL ++ ")")))
      ∧ (∀ k : String,
          (alert.Annotations = none ∨
            ∃ kvs, alert.Annotations = some kvs ∧ kvs.lookup k = none) →
          index alert.Annotations k = "") := by
  have hm := sprintf_message (emojiFor alert) (index alert.Annotations "title")
    (index alert.Annotations "description") alert.GeneratorURL g.amURL g.grafanaURL
  refine ⟨hm, ?_, ?_⟩
  · intro hour net w hs
    rw [processAlert_attempts, hs]
    simp only [Bool.false_eq_true, if_false, alertAttempts, buildMessage]
    rw [hm]
  · intro k hk
    rcases hk with hk | ⟨kvs, hk, hl⟩
    · simp [index, hk]
    · simp [index, hk, hl]

theorem buildMessage_format_witness :
    attempts (processAlert (initGlobals sampleEnv) 3 alwaysFine World.empty firingAlert) =
      [("A", "🔴 *T*\nD\n[Query](http://q) / [Mute](http://am) / [Grafana](http://grafana)"),
       ("B", "🔴 *T*\nD\n[Query](http://q) / [Mute](http://am) / [Grafana](http://grafana)")] := by
  have h := (buildMessage_format (initGlobals sampleEnv) firingAlert).2.1 3 alwaysFine
    World.empty (by decide)
  rw [h]
  decide

end AmTelegram

namespace AmTelegram

/-! ## Suppression -/

theorem inWorkingHours_eq_false (hour : Int) :
    inWorkingHours hour = false ↔ (hour < 8 ∨ hour > 22) := by
  simp only [inWorkingHours, Bool.and_eq_false_iff, decide_eq_false_iff_not]
  omega

theorem suppressed_iff (hour : Int) (alert : Alert) :
    suppressed hour alert = true ↔
      (alert.Status = "resolved" ∧ index alert.Annotations "do_not_send_resolved" = "true")
        ∨ (index alert.Annotations "only_working_hours" = "true"
            ∧ inWorkingHours hour = false) := by
  rw [inWorkingHours_eq_false]
  simp [suppressed]

theorem processAlert_suppressed (g : Globals) (hour : Int) (net : Nat → PostResult) (w : World)
    (alert : Alert) (hs : suppressed hour alert = true) :
    (processAlert g hour net w alert).posts = w.posts
      ∧ (processAlert g hour net w alert).sendCounter = w.sendCounter
      ∧ (processAlert g hour net w alert).sendErrorCounter = w.sendErrorCounter := by
  unfold processAlert
  by_cases h1 : alert.Status = "resolved" ∧ index alert.Annotations "do_not_send_resolved" = "true"
  · simp [if_pos h1, logJSON]
  · simp only [if_neg h1]
    by_cases h2 : index alert.Annotations "only_working_hours" = "true" ∧
        inWorkingHours hour = false
    · simp [if_pos h2, logJSON]
    · exact absurd ((suppressed_iff hour alert).mp hs) (by tauto)

/-- C2: for a resolved alert whose annotation do_not_send_resolved is "true",
processing the alert makes no delivery attempt and touches neither per-receiver
counter, whatever the hour, the other annotations and labels, the default
receivers and the state it starts from. -/
theorem resolved_suppressed_no_delivery (g : Globals) (hour : Int) (net : Nat → PostResult)
    (w : World) (alert : Alert) (hst : alert.Status = "resolved")
    (hann : index alert.Annotations "do_not_send_resolved" = "true") :
    (processAlert g hour net w alert).posts = w.posts
      ∧ (processAlert g hour net w alert).sendCounter = w.sendCounter
      ∧ (processAlert g hour net w alert).sendErrorCounter = w.sendErrorCounter :=
  processAlert_suppressed g hour net w alert
    ((suppressed_iff hour alert).mpr (Or.inl ⟨hst, hann⟩))

theorem resolved_suppressed_no_delivery_witness :
    (processAlert (initGlobals sampleEnv) 12 alwaysFine World.empty quietResolvedAlert).posts
        = World.empty.posts
      ∧ (processAlert (initGlobals sampleEnv) 12 alwaysFine World.empty
          quietResolvedAlert).sendCounter = World.empty.sendCounter
      ∧ (processAlert (initGlobals sampleEnv) 12 alwaysFine World.empty
          quietResolvedAlert).sendErrorCounter = World.empty.sendErrorCounter :=
  resolved_suppressed_no_delivery (initGlobals sampleEnv) 12 alwaysFine World.empty
    quietResolvedAlert (by decide) (by decide)

/-- C3: for an alert whose annotation only_working_hours is "true" and which
the resolved rule does not suppress, no delivery is attempted when the hour is
below 8 or above 22, one delivery per resolved receiver is attempted when the
hour is between 8 and 22 inclusive, and in the running program (default list
split from the configuration) the attempts are none exactly when the hour is
below 8 or above 22. -/
theorem only_working_hours_gate (g : Globals) (hour : Int) (net : Nat → PostResult)
    (w : World) (alert : Alert)
    (hann : index alert.Annotations "only_working_hours" = "true")
    (hres : ¬ (alert.Status = "resolved"
        ∧ index alert.Annotations "do_not_send_resolved" = "true")) :
    ((hour < 8 ∨ hour > 22) →
        (processAlert g hour net w alert).posts = w.posts
        ∧ (processAlert g hour net w alert).sendCounter = w.sendCounter
        ∧ (processAlert g hour net w alert).sendErrorCounter = w.sendErrorCounter)
      ∧ ((8 ≤ hour ∧ hour ≤ 22) →
          attempts (processAlert g hour net w alert) = attempts w ++ alertAttempts g alert)
      ∧ (∀ getenv : String → String, g = initGlobals getenv →
          (attempts (processAlert g hour net w alert) = attempts w ↔ (hour < 8 ∨ hour > 22))) := by
  have hin : (8 ≤ hour ∧ hour ≤ 22) → suppressed hour alert = false := by
    intro hh
    rw [Bool.eq_false_iff]
    intro hs
    rcases (suppressed_iff hour alert).mp hs with h | h
    · exact hres h
    · have := (inWorkingHours_eq_false hour).mp h.2
      omega
  have hout : (hour < 8 ∨ hour > 22) → suppressed hour alert = true := fun hh =>
    (suppressed_iff hour alert).mpr (Or.inr ⟨hann, (inWorkingHours_eq_false hour).mpr hh⟩)
  refine ⟨fun hh => processAlert_suppressed g hour net w alert (hout hh), ?_, ?_⟩
  · intro hh
    rw [processAlert_attempts, hin hh]
    simp
  · intro getenv hg
    constructor
    · intro heq
      by_contra hno
      have hh : 8 ≤ hour ∧ hour ≤ 22 := by omega
      rw [processAlert_attempts, hin hh] at heq
      simp only [Bool.false_eq_true, if_false, List.append_right_eq_self, alertAttempts,
        List.map_eq_nil_iff] at heq
      rw [hg] at heq
      exact resolveReceivers_ne_nil _ _ _ (stringsSplit_ne_nil _ _) heq
    · intro hh
      rw [processAlert_attempts, hout hh]
      simp

theorem only_working_hours_gate_witness :
    attempts (processAlert (initGlobals sampleEnv) 8 alwaysFine World.empty officeAlert)
        = attempts World.empty ++ alertAttempts (initGlobals sampleEnv) officeAlert
      ∧ attempts (processAlert (initGlobals sampleEnv) 22 alwaysFine World.empty officeAlert)
        = attempts World.empty ++ alertAttempts (initGlobals sampleEnv) officeAlert
      ∧ (processAlert (initGlobals sampleEnv) 7 alwaysFine World.empty officeAlert).posts
        = World.empty.posts
      ∧ (processAlert (initGlobals sampleEnv) 23 alwaysFine World.empty officeAlert).posts
        = World.empty.posts :=
  ⟨(only_working_hours_gate (initGlobals sampleEnv) 8 alwaysFine World.empty officeAlert
      (by decide) (by decide)).2.1 (by decide),
    (only_working_hours_gate (initGlobals sampleEnv) 22 alwaysFine World.empty officeAlert
      (by decide) (by decide)).2.1 (by decide),
    ((only_working_hours_gate (initGlobals sampleEnv) 7 alwaysFine World.empty officeAlert
      (by decide) (by decide)).1 (by decide)).1,
    ((only_working_hours_gate (initGlobals sampleEnv) 23 alwaysFine World.empty officeAlert
      (by decide) (by decide)).1 (by decide)).1⟩

/-! ## The batch -/

/-- C8: the delivery attempts of a decoded batch are, after those already made,
the concatenation in batch order over the alerts that match neither suppression
rule of one attempt per resolved receiver in list order with the alert's
message; the sequence does not depend on the outcomes of the deliveries; and in
a batch of two alerts of which one is suppressed the attempts are those of the
other alert. -/
theorem handleAlert_attempts (g : Globals) (hour : Int) (net : Nat → PostResult) (w : World)
    (wr : ResponseWriter) (payload : AlertManagerPayload) :
    attempts (handleAlert g hour net w wr (.ok payload)).1 =
        attempts w ++
          (payload.Alerts.filter (fun a => !suppressed hour a)).flatMap (alertAttempts g)
      ∧ (∀ net2 : Nat → PostResult,
          attempts (handleAlert g hour net2 w wr (.ok payload)).1
            = attempts (handleAlert g hour net w wr (.ok payload)).1)
      ∧ (∀ a b : Alert, suppressed hour a = true → suppressed hour b = false →
          attempts (handleAlert g hour net w wr (.ok ⟨[a, b]⟩)).1
              = attempts w ++ alertAttempts g b
          ∧ attempts (handleAlert g hour net w wr (.ok ⟨[b, a]⟩)).1
              = attempts w ++ alertAttempts g b) := by
  have key : ∀ (n : Nat → PostResult) (p : AlertManagerPayload),
      attempts (handleAlert g hour n w wr (.ok p)).1 =
        attempts w ++ (p.Alerts.filter (fun a => !suppressed hour a)).flatMap (alertAttempts g) := by
    intro n p
    simp only [handleAlert]
    rw [foldl_processAlert_attempts, attempts_logJSON]
  refine ⟨key net payload, fun net2 => by rw [key net2, key net], ?_⟩
  intro a b ha hb
  constructor
  · rw [key]
    simp [List.filter_cons, ha, hb]
  · rw [key]
    simp [List.filter_cons, ha, hb]

theorem handleAlert_attempts_witness :
    attempts (handleAlert (initGlobals sampleEnv) 12 alwaysBroken World.empty
        ResponseWriter.fresh (.ok ⟨[quietResolvedAlert, firingAlert]⟩)).1
      = [("A", buildMessage (initGlobals sampleEnv) firingAlert),
         ("B", buildMessage (initGlobals sampleEnv) firingAlert)] := by
  have h := ((handleAlert_attempts (initGlobals sampleEnv) 12 alwaysBroken World.empty
    ResponseWriter.fresh ⟨[]⟩).2.2 quietResolvedAlert firingAlert (by decide) (by decide)).1
  rw [h]
  decide

end AmTelegram

namespace AmTelegram

/-! ## Delivery outcomes and the response -/

/-- C5: `sendToTelegram` makes exactly one POST, and it records a failure (one
ERROR log entry and one increment of the send-error counter of the receiver)
if and only if the call returned an error or a response with status code at
least 300; otherwise it logs nothing and leaves the counter alone. A response
without error below 300 is a success, 299 included, and 300 is a failure. -/
theorem sendToTelegram_classifies (g : Globals) (net : Nat → PostResult) (w : World)
    (chatID text : String) :
    (sendToTelegram g net w chatID text).posts.length = w.posts.length + 1
      ∧ (failedOutcome (net w.posts.length) →
          (sendToTelegram g net w chatID text).sendErrorCounter = w.sendErrorCounter ++ [chatID]
          ∧ ∃ m, (sendToTelegram g net w chatID text).logs = w.logs ++ [("ERROR", m)])
      ∧ (¬ failedOutcome (net w.posts.length) →
          (sendToTelegram g net w chatID text).sendErrorCounter = w.sendErrorCounter
          ∧ (sendToTelegram g net w chatID text).logs = w.logs)
      ∧ (counterValue (sendToTelegram g net w chatID text).sendErrorCounter chatID
            = counterValue w.sendErrorCounter chatID + 1 ↔ failedOutcome (net w.posts.length))
      ∧ ((net w.posts.length).err = none →
          ∀ code, (net w.posts.length).resp = some code → code < 300 →
            (sendToTelegram g net w chatID text).sendErrorCounter = w.sendErrorCounter
            ∧ (sendToTelegram g net w chatID text).logs = w.logs)
      ∧ ((net w.posts.length).err = none → (net w.posts.length).resp = some 299 →
          (sendToTelegram g net w chatID text).sendErrorCounter = w.sendErrorCounter)
      ∧ ((net w.posts.length).err = none → (net w.posts.length).resp = some 300 →
          (sendToTelegram g net w chatID text).sendErrorCounter
            = w.sendErrorCounter ++ [chatID]) := by
  have hyes : failedOutcome (net w.posts.length) →
      (sendToTelegram g net w chatID text).sendErrorCounter = w.sendErrorCounter ++ [chatID]
        ∧ ∃ m, (sendToTelegram g net w chatID text).logs = w.logs ++ [("ERROR", m)] := by
    intro hf
    have hp := (postFailed_iff _).mpr hf
    rw [sendToTelegram_sendErrorCounter, sendToTelegram_logs, if_pos hp, if_pos hp]
    exact ⟨rfl, _, rfl⟩
  have hno : ¬ failedOutcome (net w.posts.length) →
      (sendToTelegram g net w chatID text).sendErrorCounter = w.sendErrorCounter
        ∧ (sendToTelegram g net w chatID text).logs = w.logs := by
    intro hf
    have hp : ¬ postFailed (net w.posts.length) = true := fun h => hf ((postFailed_iff _).mp h)
    rw [sendToTelegram_sendErrorCounter, sendToTelegram_logs, if_neg hp, if_neg hp]
    exact ⟨rfl, rfl⟩
  refine ⟨sendToTelegram_posts_length g net w chatID text, hyes, hno, ?_, ?_, ?_, ?_⟩
  · constructor
    · intro hc
      by_contra hf
      rw [(hno hf).1] at hc
      omega
    · intro hf
      rw [(hyes hf).1]
      simp [counterValue]
  · intro he code hr hlt
    apply hno
    rintro (h | ⟨c, hc, hge⟩)
    · exact h he
    · rw [hr] at hc
      cases hc
      omega
  · intro he hr
    apply (hno _).1
    rintro (h | ⟨c, hc, hge⟩)
    · exact h he
    · rw [hr] at hc
      cases hc
      omega
  · intro he hr
    exact (hyes (Or.inr ⟨300, hr, by omega⟩)).1

theorem sendToTelegram_classifies_witness :
    (sendToTelegram (initGlobals sampleEnv) alwaysBroken World.empty "A" "hello").sendErrorCounter
        = ["A"]
      ∧ (sendToTelegram (initGlobals sampleEnv) alwaysFine World.empty "A" "hello").sendErrorCounter
        = [] :=
  ⟨((sendToTelegram_classifies (initGlobals sampleEnv) alwaysBroken World.empty "A" "hello").2.1
      (Or.inr ⟨500, rfl, by decide⟩)).1,
    ((sendToTelegram_classifies (initGlobals sampleEnv) alwaysFine World.empty "A" "hello").2.2.2.2.1
      rfl 200 rfl (by decide)).1⟩

/-- C7: when the body does not decode the response is 400 and nothing is
processed (no counter moves, no delivery is attempted); when it decodes the
response is 200 for every batch and every assignment of delivery outcomes. -/
theorem handleAlert_response (g : Globals) (hour : Int) (net : Nat → PostResult) (w : World) :
    (∀ (wr : ResponseWriter) (e : String),
        (handleAlert g hour net w wr (.error e)).2.statusCode = 400
        ∧ (handleAlert g hour net w wr (.error e)).1.posts = w.posts
        ∧ (handleAlert g hour net w wr (.error e)).1.alertCounter = w.alertCounter
        ∧ (handleAlert g hour net w wr (.error e)).1.sendCounter = w.sendCounter
        ∧ (handleAlert g hour net w wr (.error e)).1.sendErrorCounter = w.sendErrorCounter)
      ∧ (∀ payload : AlertManagerPayload,
          (handleAlert g hour net w ResponseWriter.fresh (.ok payload)).2.statusCode = 200) := by
  constructor
  · intro wr e
    simp [handleAlert, logJSON, httpError, ResponseWriter.statusCode]
  · intro payload
    simp [handleAlert, ResponseWriter.statusCode, ResponseWriter.fresh]

/-- C4 (what the code does on a failed delivery): for one firing alert with
default receivers A and B and a messaging API that answers HTTP 500, the
send-error counter of A is 1 and the sent counter of A is 1 as well, and the
log holds both the failure entry and the entry that says the alert was
sent. -/
theorem failed_delivery_counted_as_sent :
    counterValue (handleAlert (initGlobals sampleEnv) 12 alwaysBroken World.empty
        ResponseWriter.fresh (.ok ⟨[firingAlert]⟩)).1.sendErrorCounter "A" = 1
      ∧ counterValue (handleAlert (initGlobals sampleEnv) 12 alwaysBroken World.empty
        ResponseWriter.fresh (.ok ⟨[firingAlert]⟩)).1.sendCounter "A" = 1
      ∧ ("ERROR", "Failed to send alert to A: HTTP 500") ∈
          (handleAlert (initGlobals sampleEnv) 12 alwaysBroken World.empty
            ResponseWriter.fresh (.ok ⟨[firingAlert]⟩)).1.logs
      ∧ ("NORMAL", "Alert sent to receiver: A") ∈
          (handleAlert (initGlobals sampleEnv) 12 alwaysBroken World.empty
            ResponseWriter.fresh (.ok ⟨[firingAlert]⟩)).1.logs := by
  decide

end AmTelegram
